import Mathlib

/-!
Verification development for the ramble-web-scraper repository.

The repository consists of two Google Cloud Function handlers in
src/main.py: scrape_and_upload (HTTP-triggered fetch + raw-HTML store)
and process_data (storage-event-triggered extraction + JSON store +
optional queue publish), plus a config loader.  This file gives a
shallow embedding of the logic of those handlers and proves the frozen
claims about them.

External collaborators (requests, Cloud Storage, Pub/Sub, the
BeautifulSoup CSS-selector matcher, base64/json decoding) are modelled
as oracles: the world record carries the outcome each collaborator
would produce, and the handler logic is translated faithfully around
them.  The URL functions from urllib.parse (urlsplit, urlparse,
urlunparse, urljoin) and os.path.splitext are deterministic library
code and are translated directly from the CPython sources (the
control-character stripping and IPv6 bracket validation of urlsplit,
which are irrelevant to the inputs at hand, are omitted).
-/

/-! ## Python truthiness helpers -/

/-- Truthiness of a Python string: non-empty strings are truthy. -/
def pyTruthyStr (s : String) : Bool := s != ""

/-- Truthiness of an optional Python string (None is falsy, the empty
string is falsy). -/
def pyTruthyOptStr : Option String → Bool
  | some s => s != ""
  | none => false

/-- Lookup in a JSON object / Python dict, modelled as an association
list; dict.get returns None when the key is absent. -/
def dictGet {α : Type} (d : List (String × α)) (k : String) : Option α :=
  (d.find? (fun p => p.1 == k)).map (fun p => p.2)

/-! ## Configuration store (config.json) -/

/-- A config.json entry for one domain: a JSON object whose values are
strings or null (the repository uses the keys next_page_selector and
result_link_selector, possibly null, as in the tests). -/
abbrev ConfigEntry := List (String × Option String)

/-- The configuration mapping: domain string to rule object. -/
abbrev Config := List (String × ConfigEntry)

/-- Truthiness of a Python dict: non-empty dicts are truthy. -/
def entryTruthy (e : ConfigEntry) : Bool := !e.isEmpty

/-- Truthiness of the result of config.get(domain). -/
def optEntryTruthy : Option ConfigEntry → Bool
  | some e => entryTruthy e
  | none => false

/-- domain_config.get(key) in the Python code: returns None both when
the key is absent and when it is present with a null value. -/
def getSel (e : ConfigEntry) (k : String) : Option String :=
  match dictGet e k with
  | some v => v
  | none => none

/-- Removal of the first occurrence of a pattern from a character list;
this is str.replace(pat, empty, 1) from the Python code at main.py:220. -/
def removeFirstOccList (pat : List Char) : List Char → List Char
  | [] => []
  | c :: rest =>
    if pat.isPrefixOf (c :: rest) then (c :: rest).drop pat.length
    else c :: removeFirstOccList pat rest

/-- The expression domain.replace("www.", "", 1) from main.py:220. -/
def pyReplaceWwwOnce (s : String) : String :=
  String.mk (removeFirstOccList "www.".toList s.toList)

/-- Python str.startswith, modelled as a character-list test. -/
def pyStartsWith (s pre : String) : Bool := pre.toList.isPrefixOf s.toList

/-- Python str.split(c) for a single-character separator, by structural
recursion on the character list: a separator ends the current piece. -/
def splitOnChar (c : Char) : List Char → List (List Char)
  | [] => [[]]
  | x :: xs =>
    let r := splitOnChar c xs
    if x == c then [] :: r
    else (x :: r.headD []) :: r.tail

/-- Python str.split("/") on a string. -/
def splitSlash (s : String) : List String := (splitOnChar '/' s.toList).map String.mk

/-- The lookup domain: file_name.split("/")[0] (main.py:216). -/
def domainOf (file_name : String) : String := (splitSlash file_name).headD ""

/-- The value of the Python variable domain_config (main.py:219-223):
config.get(domain) or (config.get(domain.replace("www.", "", 1)) if
domain.startswith("www.") else None).  The or operator returns its
second operand whenever the first is falsy. -/
def domainConfigValue (config : Config) (domain : String) : Option ConfigEntry :=
  let first := dictGet config domain
  if optEntryTruthy first then first
  else if pyStartsWith domain "www." then dictGet config (pyReplaceWwwOnce domain)
  else none

/-- The rule the configured-extraction branch runs with: some rule
exactly when the if domain_config: test at main.py:225 succeeds. -/
def selectedRule (config : Config) (domain : String) : Option ConfigEntry :=
  let dc := domainConfigValue config domain
  if optEntryTruthy dc then dc else none

/-! ## Parsed HTML documents

BeautifulSoup parsing and CSS-selector matching are external library
collaborators.  A parsed document (soup) is modelled as the list of its
element tags in document order; each tag carries its name, its
attribute dict, and the list of CSS selectors the external matcher
matches it against.  soup.select returns matched tags in document
order, which the list order models. -/

structure Tag where
  name : String
  attrs : List (String × String)
  matchedBy : List String
deriving DecidableEq, Repr

/-- A parsed document in document order. -/
abbrev Soup := List Tag

/-- tag.get(key): the attribute value, or None when absent. -/
def tagGet (t : Tag) (k : String) : Option String := dictGet t.attrs k

/-- Truthiness of tag.get("href"): present with a non-empty value. -/
def hrefTruthy (t : Tag) : Bool := pyTruthyOptStr (tagGet t "href")

/-- soup.select(selector): every matched tag in document order. -/
def selectAll (soup : Soup) (s : String) : List Tag :=
  soup.filter (fun t => t.matchedBy.contains s)

/-- soup.select_one(selector): the first matched tag, if any. -/
def selectOne (soup : Soup) (s : String) : Option Tag := (selectAll soup s).head?

/-- soup.find_all("a"): every anchor tag in document order. -/
def findAllA (soup : Soup) : List Tag := soup.filter (fun t => t.name == "a")

/-! ## urllib.parse model

Translated from CPython Lib/urllib/parse.py. -/

/-- Characters allowed in a URL scheme after the initial letter. -/
def schemeChars : List Char :=
  "abcdefghijklmnopqrstuvwxyzABCDEFGHIJKLMNOPQRSTUVWXYZ0123456789+-.".toList

/-- The uses_relative scheme list from urllib.parse. -/
def usesRelative : List String :=
  ["", "ftp", "http", "gopher", "nntp", "imap", "wais", "file", "https",
   "shttp", "mms", "prospero", "rtsp", "rtspu", "sftp", "svn", "svn+ssh",
   "ws", "wss"]

/-- The uses_netloc scheme list from urllib.parse. -/
def usesNetloc : List String :=
  ["", "ftp", "http", "gopher", "nntp", "telnet", "imap", "wais", "file",
   "mms", "https", "shttp", "snews", "prospero", "rtsp", "rtspu", "rsync",
   "svn", "svn+ssh", "sftp", "nfs", "git", "git+ssh", "ws", "wss"]

/-- The uses_params scheme list from urllib.parse. -/
def usesParams : List String :=
  ["", "ftp", "hdl", "prospero", "http", "imap", "https", "shttp", "rtsp",
   "rtspu", "sip", "sips", "mms", "sftp", "tel"]

/-- Split a character list at the first occurrence of a delimiter,
dropping the delimiter; None when the delimiter does not occur. -/
def splitAtFirst (c : Char) (l : List Char) : Option (List Char × List Char) :=
  if l.contains c then
    some (l.takeWhile (fun x => x != c), (l.dropWhile (fun x => x != c)).drop 1)
  else none

/-- The _splitnetloc helper: the netloc runs to the first of the three
delimiters, the rest of the URL starts there. -/
def splitnetlocList (l : List Char) : List Char × List Char :=
  (l.takeWhile (fun c => !(c == '/' || c == '?' || c == '#')),
   l.dropWhile (fun c => !(c == '/' || c == '?' || c == '#')))

/-- The five components returned by urlsplit. -/
structure SplitResult where
  scheme : String
  netloc : String
  path : String
  query : String
  fragment : String
deriving DecidableEq, Repr

/-- urlsplit(url, scheme=dscheme, allow_fragments=True), translated from
urllib.parse: detect a scheme (a leading letter followed by scheme
characters before a colon, lowercased), then the netloc after a leading
double slash, then split off the fragment at the first hash sign and
the query at the first question mark. -/
def urlsplitList (url : List Char) (dscheme : String) : SplitResult :=
  let schemeRest : String × List Char :=
    match splitAtFirst ':' url with
    | some (pre, post) =>
      if pre ≠ [] ∧ (pre.headD ' ').isAlpha ∧ pre.all (fun c => schemeChars.contains c) then
        (String.mk (pre.map Char.toLower), post)
      else (dscheme, url)
    | none => (dscheme, url)
  let netlocRest : List Char × List Char :=
    if schemeRest.2.take 2 = ['/', '/'] then splitnetlocList (schemeRest.2.drop 2)
    else ([], schemeRest.2)
  let urlFrag : List Char × List Char :=
    match splitAtFirst '#' netlocRest.2 with
    | some (a, b) => (a, b)
    | none => (netlocRest.2, [])
  let pathQuery : List Char × List Char :=
    match splitAtFirst '?' urlFrag.1 with
    | some (a, b) => (a, b)
    | none => (urlFrag.1, [])
  ⟨schemeRest.1, String.mk netlocRest.1, String.mk pathQuery.1,
   String.mk pathQuery.2, String.mk urlFrag.2⟩

/-- First index at or after a start position holding a given character. -/
def findIdxFrom (c : Char) (start : Nat) (l : List Char) : Option Nat :=
  ((l.enum.filter (fun p => start ≤ p.1 ∧ p.2 == c)).map (fun p => p.1)).head?

/-- Last index holding a given character. -/
def lastIdxOf (c : Char) (l : List Char) : Option Nat :=
  ((l.enum.filter (fun p => p.2 == c)).map (fun p => p.1)).getLast?

/-- The _splitparams helper from urllib.parse: split the params off the
last path segment at the first semicolon at or after the last slash. -/
def splitparamsList (p : List Char) : List Char × List Char :=
  let start : Nat :=
    match lastIdxOf '/' p with
    | some k => k
    | none => 0
  match findIdxFrom ';' start p with
  | some i => (p.take i, p.drop (i + 1))
  | none => (p, [])

/-- The six components returned by urlparse. -/
structure ParseResult where
  scheme : String
  netloc : String
  path : String
  params : String
  query : String
  fragment : String
deriving DecidableEq, Repr

/-- urlparse(url, scheme=dscheme): urlsplit plus the params split, which
applies when the scheme uses params and the path holds a semicolon. -/
def urlparseList (url : List Char) (dscheme : String) : ParseResult :=
  let s := urlsplitList url dscheme
  if usesParams.contains s.scheme ∧ s.path.toList.contains ';' then
    let pp := splitparamsList s.path.toList
    ⟨s.scheme, s.netloc, String.mk pp.1, String.mk pp.2, s.query, s.fragment⟩
  else ⟨s.scheme, s.netloc, s.path, "", s.query, s.fragment⟩

/-- urlparse on a string. -/
def pyUrlparse (url : String) (dscheme : String) : ParseResult :=
  urlparseList url.toList dscheme

/-- urlunsplit from urllib.parse. -/
def urlunsplitStr (scheme netloc path query fragment : String) : String :=
  let u1 :=
    if netloc != "" || (path != "" && pyStartsWith path "//") then
      "//" ++ netloc ++ (if path != "" && !pyStartsWith path "/" then "/" ++ path else path)
    else path
  let u2 := if scheme != "" then scheme ++ ":" ++ u1 else u1
  let u3 := if query != "" then u2 ++ "?" ++ query else u2
  if fragment != "" then u3 ++ "#" ++ fragment else u3

/-- urlunparse from urllib.parse. -/
def urlunparseStr (p : ParseResult) : String :=
  let u := if p.params != "" then p.path ++ ";" ++ p.params else p.path
  urlunsplitStr p.scheme p.netloc u p.query p.fragment

/-- The segments[1:-1] = filter(None, segments[1:-1]) step of urljoin:
drop empty strings strictly between the first and last elements. -/
def filterMiddle : List String → List String
  | [] => []
  | [x] => [x]
  | x :: xs => x :: ((xs.dropLast.filter (fun s => s != "")) ++ [xs.getLastD ""])

/-- The dot-segment resolution loop of urljoin: a double-dot pops the
accumulator (a pop on an empty accumulator is ignored), a single dot is
skipped, anything else is appended. -/
def resolveSegs (acc : List String) : List String → List String
  | [] => acc
  | s :: rest =>
    if s = ".." then resolveSegs acc.dropLast rest
    else if s = "." then resolveSegs acc rest
    else resolveSegs (acc ++ [s]) rest

/-- urljoin(base, url) translated from urllib.parse. -/
def urljoin (base url : String) : String :=
  if base = "" then url
  else if url = "" then base
  else
    let b := pyUrlparse base ""
    let r := pyUrlparse url b.scheme
    if r.scheme ≠ b.scheme ∨ ¬ usesRelative.contains r.scheme then url
    else if usesNetloc.contains r.scheme ∧ r.netloc ≠ "" then urlunparseStr r
    else
      let netloc := if usesNetloc.contains r.scheme then b.netloc else r.netloc
      if r.path = "" ∧ r.params = "" then
        let query := if r.query = "" then b.query else r.query
        urlunparseStr ⟨r.scheme, netloc, b.path, b.params, query, r.fragment⟩
      else
        let baseParts0 := splitSlash b.path
        let baseParts := if baseParts0.getLastD "" ≠ "" then baseParts0.dropLast else baseParts0
        let segments :=
          if pyStartsWith r.path "/" then splitSlash r.path
          else filterMiddle (baseParts ++ splitSlash r.path)
        let resolved0 := resolveSegs [] segments
        let resolved :=
          if segments.getLastD "" = "." ∨ segments.getLastD "" = ".." then resolved0 ++ [""]
          else resolved0
        let joined := String.intercalate "/" resolved
        let fpath := if joined = "" then "/" else joined
        urlunparseStr ⟨r.scheme, netloc, fpath, r.params, r.query, r.fragment⟩

/-! ## os.path.splitext model (posixpath on Cloud Functions) -/

/-- os.path.splitext translated from genericpath._splitext with a slash
separator and a dot extension separator: the extension starts at the
last dot after the last slash, unless the basename up to that dot is
all dots. -/
def splitextList (p : List Char) : List Char × List Char :=
  let sepIndex : Int :=
    match lastIdxOf '/' p with
    | some n => (n : Int)
    | none => -1
  let dotIndex : Int :=
    match lastIdxOf '.' p with
    | some n => (n : Int)
    | none => -1
  if sepIndex < dotIndex then
    let start := (sepIndex + 1).toNat
    let stop := dotIndex.toNat
    if ((p.drop start).take (stop - start)).any (fun ch => ch != '.') then
      (p.take stop, p.drop stop)
    else (p, [])
  else (p, [])

/-- os.path.splitext on a string. -/
def splitext (s : String) : String × String :=
  let ab := splitextList s.toList
  (String.mk ab.1, String.mk ab.2)

/-- Python str.endswith, modelled as a character-list suffix test. -/
def pyEndsWith (s suffixStr : String) : Bool := suffixStr.toList.isSuffixOf s.toList

/-! ## Extraction engine (process_data, main.py:225-285) -/

/-- The structured output written to the processed bucket in link mode. -/
structure ExtractionResult where
  source_file : String
  next_page_url : Option String
  result_urls : List String
deriving DecidableEq, Repr

/-- The result-collection loop of main.py:250-252 and 276-278: for each
tag in order, if tag.get("href") is truthy, append
urljoin(base_url, tag["href"]). -/
def collectLinks (base : String) : List Tag → List String
  | [] => []
  | t :: rest =>
    if hrefTruthy t then urljoin base ((tagGet t "href").getD "") :: collectLinks base rest
    else collectLinks base rest

/-- Configured Extraction (main.py:226-262): the next-page selector, when
truthy, is applied with select_one and the first match contributes a
next_page_url when it carries a truthy href; the result-link selector,
when truthy, is applied with select and every match with a truthy href
contributes a resolved URL in document order. -/
def configuredExtraction (rule : ConfigEntry) (soup : Soup) (base_url source_file : String) :
    ExtractionResult :=
  let next_page_url : Option String :=
    match getSel rule "next_page_selector" with
    | some s =>
      if s ≠ "" then
        match selectOne soup s with
        | some t =>
          if hrefTruthy t then some (urljoin base_url ((tagGet t "href").getD ""))
          else none
        | none => none
      else none
    | none => none
  let result_urls : List String :=
    match getSel rule "result_link_selector" with
    | some s => if s ≠ "" then collectLinks base_url (selectAll soup s) else []
    | none => []
  ⟨source_file, next_page_url, result_urls⟩

/-- Fallback Extraction (main.py:264-285): every anchor with a truthy
href contributes a resolved URL in document order; next_page_url is
always None. -/
def fallbackExtraction (soup : Soup) (base_url source_file : String) : ExtractionResult :=
  ⟨source_file, none, collectLinks base_url (findAllA soup)⟩

/-- The soup BeautifulSoup produces for the empty document string: it
holds no element tags, so the modelled tag list is empty.  Any
malformed document likewise parses without error to some tag list. -/
def soupOfEmptyDoc : Soup := []

/-! ## process_data handler (main.py:167-362) -/

/-- Outcome of the raw-blob download (download_as_text): the parsed soup
of the downloaded text, or an exception (NotFound, Forbidden,
UnicodeDecodeError), which the handler catches and logs. -/
inductive DownloadOutcome where
  | ok (soup : Soup)
  | err
deriving DecidableEq

/-- Outcome of a storage write (upload_from_string). -/
inductive StoreOutcome where
  | ok
  | err
deriving DecidableEq

/-- The world one process_data invocation runs in: environment
variables, the loaded config, the trigger event data (None models a
missing bucket or name key, which raises KeyError), and the outcomes of
the storage collaborator calls. -/
structure ProcWorld where
  processed_data_bucket : Option String
  crawl_queue_topic : Option String
  config : Config
  event : Option (String × String)
  download : DownloadOutcome
  store : StoreOutcome

/-- The observable outcome of one process_data invocation: the processed
file written (if any), the message published to the crawl queue (topic
and url, if any), and the extraction result computed (if reached). -/
structure ProcResult where
  uploadedFile : Option String
  published : Option (String × String)
  extraction : Option ExtractionResult
deriving DecidableEq

/-- process_data translated from main.py:167-362.  The handler returns
early (logging only) when the processed bucket is unset, when the event
data lacks bucket or name, or when the download raises; otherwise it
extracts per the selected policy, writes the JSON blob, and publishes
the next-page URL when one was found and a topic is configured.  A
storage-write exception aborts before the publish step. -/
def processData (w : ProcWorld) : ProcResult :=
  if ¬ pyTruthyOptStr w.processed_data_bucket then ⟨none, none, none⟩
  else
    match w.event with
    | none => ⟨none, none, none⟩
    | some (_, file_name) =>
      match w.download with
      | .err => ⟨none, none, none⟩
      | .ok soup =>
        let domain := domainOf file_name
        let base_url := "https://" ++ domain
        let pd : ExtractionResult :=
          match selectedRule w.config domain with
          | some rule => configuredExtraction rule soup base_url file_name
          | none => fallbackExtraction soup base_url file_name
        let processed_file_name := (splitext file_name).1 ++ ".json"
        match w.store with
        | .err => ⟨none, none, some pd⟩
        | .ok =>
          let published : Option (String × String) :=
            if pyTruthyOptStr pd.next_page_url ∧ pyTruthyOptStr w.crawl_queue_topic then
              some (w.crawl_queue_topic.getD "", pd.next_page_url.getD "")
            else none
          ⟨some processed_file_name, published, some pd⟩

/-! ## scrape_and_upload handler (main.py:47-164) -/

/-- Outcome of base64.b64decode followed by .decode("utf-8") on the data
field: the decoded text, a binascii.Error from b64decode (caught only
by the generic handler), or a UnicodeDecodeError (caught by the
400 handler). -/
inductive DecodeOutcome where
  | ok (text : String)
  | b64err
  | unicodeErr
deriving DecidableEq

/-- Outcome of json.loads on the decoded text: the url field of the
payload (None when absent), or a JSONDecodeError. -/
inductive ParseOutcome where
  | ok (url : Option String)
  | err
deriving DecidableEq

/-- Outcome of requests.get plus raise_for_status: the body text, or a
RequestException (timeout, connection failure, non-2xx status). -/
inductive FetchOutcome where
  | ok (html : String)
  | err
deriving DecidableEq

/-- Whether a fetch outcome is a RequestException. -/
def FetchOutcome.isErr : FetchOutcome → Bool
  | .ok _ => false
  | .err => true

/-- The message object of the trigger payload; data is the key "data"
when present. -/
structure TriggerMessage where
  data : Option String
deriving DecidableEq

/-- The parsed trigger body; message is the key "message" when present. -/
structure TriggerJson where
  message : Option TriggerMessage
deriving DecidableEq

/-- The world one scrape_and_upload invocation runs in: the bucket
environment variable, the result of request.get_json(silent=True)
(None models both an unparsable body and a falsy one), and oracles for
the decode, parse, fetch, and storage collaborators. -/
structure ScrapeWorld where
  raw_data_bucket : Option String
  trigger : Option TriggerJson
  decode : String → DecodeOutcome
  parse : String → ParseOutcome
  fetch : String → FetchOutcome
  store : String → StoreOutcome

/-- The observable outcome of one scrape_and_upload invocation: the
HTTP status returned, whether the outbound GET was attempted, whether a
storage write was attempted, and the blob name written on success. -/
structure ScrapeResult where
  status : Nat
  fetched : Bool
  uploadAttempted : Bool
  uploaded : Option String
deriving DecidableEq

/-- The deterministic storage key (main.py:102-116): netloc + path from
urlparse; append index.html when the key ends in a slash, /index.html
when the path is empty, and .html when the key has no extension. -/
def deriveFilenameParts (netloc path : String) : String :=
  let filename := netloc ++ path
  if pyEndsWith filename "/" then filename ++ "index.html"
  else if path = "" then filename ++ "/index.html"
  else if (splitext filename).2 = "" then filename ++ ".html"
  else filename

/-- The deterministic storage key computed from the target URL. -/
def deriveFilename (url : String) : String :=
  let p := pyUrlparse url ""
  deriveFilenameParts p.netloc p.path

/-- scrape_and_upload translated from main.py:47-164.  Missing bucket
configuration returns 500 before any work.  A missing or falsy JSON
body, a missing message or data key, a UnicodeDecodeError, a
JSONDecodeError, or a falsy url return 400.  A binascii.Error from
b64decode reaches only the generic handler and returns 500.  A
RequestException returns 500 with no storage write.  A storage
exception returns 500.  Success returns 200. -/
def scrapeAndUpload (w : ScrapeWorld) : ScrapeResult :=
  if ¬ pyTruthyOptStr w.raw_data_bucket then ⟨500, false, false, none⟩
  else
    match w.trigger with
    | none => ⟨400, false, false, none⟩
    | some t =>
      match t.message with
      | none => ⟨400, false, false, none⟩
      | some m =>
        match m.data with
        | none => ⟨400, false, false, none⟩
        | some b64 =>
          match w.decode b64 with
          | .b64err => ⟨500, false, false, none⟩
          | .unicodeErr => ⟨400, false, false, none⟩
          | .ok text =>
            match w.parse text with
            | .err => ⟨400, false, false, none⟩
            | .ok urlOpt =>
              if ¬ pyTruthyOptStr urlOpt then ⟨400, false, false, none⟩
              else
                let url := urlOpt.getD ""
                match w.fetch url with
                | .err => ⟨500, true, false, none⟩
                | .ok _ =>
                  let filename := deriveFilename url
                  match w.store filename with
                  | .err => ⟨500, true, true, none⟩
                  | .ok => ⟨200, true, true, some filename⟩

/-! ## Spec-side status taxonomy (for the amended form of claim C4) -/

/-- Status taxonomy written from the amended claim wording rather than
from the handler code: 500 for a missing bucket configuration, for data
whose base64 decoding itself fails, for a fetch failure, and for a
storage failure; 400 for a missing or falsy trigger body, a missing
message or data key, data that base64-decodes but is not valid UTF-8,
unparsable JSON, or a missing or empty url; 200 on success. -/
def statusPerAmendedClaim (w : ScrapeWorld) : Nat :=
  if ¬ pyTruthyOptStr w.raw_data_bucket then 500
  else
    match w.trigger with
    | none => 400
    | some t =>
      match t.message with
      | none => 400
      | some m =>
        match m.data with
        | none => 400
        | some b64 =>
          match w.decode b64 with
          | .b64err => 500
          | .unicodeErr => 400
          | .ok text =>
            match w.parse text with
            | .err => 400
            | .ok urlOpt =>
              if ¬ pyTruthyOptStr urlOpt then 400
              else
                match w.fetch (urlOpt.getD "") with
                | .err => 500
                | .ok _ =>
                  match w.store (deriveFilename (urlOpt.getD "")) with
                  | .err => 500
                  | .ok => 200

/-! ## Concrete inputs used by witnesses and counterexamples -/

/-- A trigger body whose message carries the given data field. -/
def triggerWithData (d : String) : TriggerJson := ⟨some ⟨some d⟩⟩

/-- Scrape world in which the bucket is set, the trigger is well formed,
and the data field fails base64 decoding (as the single character a
does: its padding is invalid, so b64decode raises binascii.Error). -/
def scrapeWorldB64 : ScrapeWorld where
  raw_data_bucket := some "raw-bucket"
  trigger := some (triggerWithData "a")
  decode := fun _ => .b64err
  parse := fun _ => .err
  fetch := fun _ => .err
  store := fun _ => .err

/-- Scrape world in which everything up to the outbound GET succeeds
and the GET itself fails. -/
def scrapeWorldFetchFail : ScrapeWorld where
  raw_data_bucket := some "raw-bucket"
  trigger := some (triggerWithData "ZGF0YQ==")
  decode := fun _ => .ok "payload"
  parse := fun _ => .ok (some "http://example.com/page.html")
  fetch := fun _ => .err
  store := fun _ => .ok

/-- An anchor tag whose href is a bare hash fragment. -/
def tagHashOnly : Tag := ⟨"a", [("href", "#")], ["rsel", "nsel"]⟩

/-- An anchor tag with no href attribute, matched by the result
selector. -/
def tagNoHref : Tag := ⟨"a", [], ["rsel", "nsel"]⟩

/-- An anchor tag whose href is the empty string. -/
def tagEmptyHref : Tag := ⟨"a", [("href", "")], ["rsel"]⟩

/-- An anchor tag with an ordinary relative href, matched by both
selectors. -/
def tagGood : Tag := ⟨"a", [("href", "/x.html")], ["rsel", "nsel"]⟩

/-- A rule configuring both selectors, keyed as in config.json. -/
def ruleBoth : ConfigEntry :=
  [("next_page_selector", some "nsel"), ("result_link_selector", some "rsel")]

/-- Process world with no crawl-queue topic configured, whose document
yields a non-null next-page URL. -/
def procWorldNoTopic : ProcWorld where
  processed_data_bucket := some "processed-bucket"
  crawl_queue_topic := none
  config := [("books.toscrape.com", [("next_page_selector", some "nsel")])]
  event := some ("raw-bucket", "books.toscrape.com/index.html")
  download := .ok [⟨"a", [("href", "catalogue/page-2.html")], ["nsel"]⟩]
  store := .ok

/-- Process world for the www-alias witness: the stored file lives under
www.recreation.gov, the config has a non-empty rule only for
recreation.gov. -/
def procWorldWwwAlias : ProcWorld where
  processed_data_bucket := some "processed-bucket"
  crawl_queue_topic := none
  config := [("recreation.gov", [("result_link_selector", some "rsel")])]
  event := some ("raw-bucket", "www.recreation.gov/search.html")
  download := .ok [⟨"a", [("href", "/camping/campgrounds/231875")], ["rsel"]⟩]
  store := .ok

/-- Process world for the C1 counterexample: the config has an entry for
the stripped domain example.com, but that entry is the empty object, so
the code treats it as falsy and runs Fallback Extraction. -/
def procWorldWwwEmptyRule : ProcWorld where
  processed_data_bucket := some "processed-bucket"
  crawl_queue_topic := none
  config := [("example.com", [])]
  event := some ("raw-bucket", "www.example.com/page.html")
  download := .ok [⟨"a", [("href", "/x.html")], []⟩]
  store := .ok

/-- Process world for the C10 witness, non-www case: the exact domain
has an empty-object entry and no alias applies. -/
def procWorldFalsyExact : ProcWorld where
  processed_data_bucket := some "processed-bucket"
  crawl_queue_topic := none
  config := [("plain.com", [])]
  event := some ("raw-bucket", "plain.com/page.html")
  download := .ok [⟨"a", [("href", "/y.html")], []⟩]
  store := .ok

/-- Process world for the C10 witness, www case: the exact www domain
has an empty-object entry and the stripped domain has a non-empty
rule. -/
def procWorldFalsyExactWww : ProcWorld where
  processed_data_bucket := some "processed-bucket"
  crawl_queue_topic := none
  config := [("www.shop.com", []), ("shop.com", [("result_link_selector", some "rsel")])]
  event := some ("raw-bucket", "www.shop.com/page.html")
  download := .ok [⟨"a", [("href", "/z.html")], ["rsel"]⟩]
  store := .ok

/-! ## Helper lemmas -/

theorem collectLinks_append (base : String) (l₁ l₂ : List Tag) :
    collectLinks base (l₁ ++ l₂) = collectLinks base l₁ ++ collectLinks base l₂ := by
  induction l₁ with
  | nil => rfl
  | cons t rest ih =>
    simp only [List.cons_append, collectLinks]
    by_cases h : hrefTruthy t <;> simp [h, ih]

theorem collectLinks_cons_skip (base : String) (t : Tag) (l : List Tag)
    (h : hrefTruthy t = false) : collectLinks base (t :: l) = collectLinks base l := by
  simp [collectLinks, h]

theorem collectLinks_eq_filter_map (base : String) (l : List Tag) :
    collectLinks base l
      = (l.filter hrefTruthy).map (fun t => urljoin base ((tagGet t "href").getD "")) := by
  induction l with
  | nil => rfl
  | cons t rest ih =>
    by_cases h : hrefTruthy t <;> simp [collectLinks, List.filter_cons, h, ih]

theorem toList_append (s t : String) : (s ++ t).toList = s.toList ++ t.toList := rfl

theorem single_suffix_iff_getLast (c : Char) (l : List Char) :
    [c] <:+ l ↔ l.getLast? = some c := by
  constructor
  · rintro ⟨t, rfl⟩
    exact List.getLast?_concat t
  · intro h
    rcases List.getLast?_eq_some_iff.mp h with ⟨ys, rfl⟩
    exact ⟨ys, rfl⟩

theorem pyEndsWith_slash_append (n p : String) (h : p.toList ≠ []) :
    pyEndsWith (n ++ p) "/" = pyEndsWith p "/" := by
  apply Bool.eq_iff_iff.mpr
  simp only [pyEndsWith, toList_append, List.isSuffixOf_iff_suffix]
  have hchar : ("/" : String).toList = ['/'] := rfl
  rw [hchar, single_suffix_iff_getLast, single_suffix_iff_getLast, List.getLast?_append]
  rcases hl : p.toList.getLast? with _ | a
  · exact absurd (List.getLast?_eq_none_iff.mp hl) h
  · simp [Option.or]

theorem pyEndsWith_append_self (a b : String) : pyEndsWith (a ++ b) b = true := by
  simp [pyEndsWith, toList_append, List.isSuffixOf_iff_suffix]

theorem pyEndsWith_extend (s t : String) (h : pyEndsWith s "/" = true) :
    pyEndsWith (s ++ t) ("/" ++ t) = true := by
  simp only [pyEndsWith, toList_append, List.isSuffixOf_iff_suffix] at h ⊢
  rcases h with ⟨pre, hpre⟩
  exact ⟨pre, by rw [← List.append_assoc, hpre]⟩

/-! ## Claim theorems -/

/-- Claim C5: the document consisting of the single anchor with href
/about.html, processed by Fallback Extraction against the base URL
http://example.com/page.html, produces result_urls equal to the
singleton list holding http://example.com/about.html. -/
theorem c5_fallback_relative_resolution :
    fallbackExtraction [⟨"a", [("href", "/about.html")], []⟩]
        "http://example.com/page.html" "example.com/page.html"
      = ⟨"example.com/page.html", none, ["http://example.com/about.html"]⟩ := by
  decide

/-- Claim C7: on the soup of the empty document string (and the engine
is a total function, so no exception arises on any soup), both
Configured Extraction with any rule and Fallback Extraction produce an
ExtractionResult with empty result_urls and no next_page_url. -/
theorem c7_empty_document_safe (rule : ConfigEntry) (base sf : String) :
    configuredExtraction rule soupOfEmptyDoc base sf = ⟨sf, none, []⟩
      ∧ fallbackExtraction soupOfEmptyDoc base sf = ⟨sf, none, []⟩ := by
  constructor
  · unfold configuredExtraction
    rcases h1 : getSel rule "next_page_selector" with _ | s
    · rcases h2 : getSel rule "result_link_selector" with _ | s2
      · simp [h1, h2]
      · by_cases hs2 : s2 = "" <;>
          simp [h1, h2, hs2, soupOfEmptyDoc, selectAll, collectLinks]
    · rcases h2 : getSel rule "result_link_selector" with _ | s2
      · by_cases hs : s = "" <;>
          simp [h1, h2, hs, soupOfEmptyDoc, selectOne, selectAll, collectLinks]
      · by_cases hs : s = "" <;> by_cases hs2 : s2 = "" <;>
          simp [h1, h2, hs, hs2, soupOfEmptyDoc, selectOne, selectAll, collectLinks]
  · rfl

/-- Claim C2 counterexample: an anchor whose href is the bare fragment
hash sign is a present, non-empty, truthy href, so the code does NOT
skip it: in fallback mode it contributes an entry to result_urls
(urljoin drops the empty fragment, yielding the base), and in
configured mode it becomes next_page_url. -/
theorem c2_cex_hash_href_not_skipped :
    tagGet tagHashOnly "href" = some "#"
    ∧ (fallbackExtraction [tagHashOnly] "https://example.com" "f").result_urls
        = ["https://example.com"]
    ∧ (configuredExtraction ruleBoth [tagHashOnly] "https://example.com" "f").next_page_url
        = some "https://example.com" := by
  refine ⟨rfl, by decide, by decide⟩

/-- Claim C2 (amended): hrefs that are missing or empty strings are
skipped — such an element contributes no entry to result_urls in either
mode, and can never supply next_page_url — but a present non-empty
href, including a bare hash fragment, is not skipped. -/
theorem c2_falsy_href_skipped (pre post : Soup) (t : Tag) (rule : ConfigEntry)
    (base sf : String) (h : hrefTruthy t = false) :
    (fallbackExtraction (pre ++ t :: post) base sf).result_urls
        = (fallbackExtraction (pre ++ post) base sf).result_urls
    ∧ (configuredExtraction rule (pre ++ t :: post) base sf).result_urls
        = (configuredExtraction rule (pre ++ post) base sf).result_urls
    ∧ (∀ soup s tt, getSel rule "next_page_selector" = some s →
        selectOne soup s = some tt → hrefTruthy tt = false →
        (configuredExtraction rule soup base sf).next_page_url = none) := by
  refine ⟨?_, ?_, ?_⟩
  · show collectLinks base (findAllA (pre ++ t :: post))
        = collectLinks base (findAllA (pre ++ post))
    unfold findAllA
    simp only [List.filter_append, List.filter_cons]
    by_cases ha : t.name == "a"
    · simp only [ha, if_pos]
      rw [collectLinks_append, collectLinks_append, collectLinks_cons_skip base t _ h]
    · simp [ha]
  · unfold configuredExtraction
    rcases h2 : getSel rule "result_link_selector" with _ | s
    · simp [h2]
    · by_cases hs : s = ""
      · simp [h2, hs]
      · simp only [h2, hs, if_neg, ne_eq, not_false_iff, if_pos]
        unfold selectAll
        simp only [List.filter_append, List.filter_cons]
        by_cases hm : t.matchedBy.contains s = true
        · rw [if_pos hm, collectLinks_append, collectLinks_append,
            collectLinks_cons_skip base t _ h]
        · rw [if_neg hm]
  · intro soup s tt hget hone htt
    unfold configuredExtraction
    simp [hget, hone, htt]

/-- Witness for the amended claim C2, instantiated at an anchor with no
href attribute between two concrete documents, and at a document whose
first next-page match carries no href. -/
theorem c2_falsy_href_skipped_witness :
    (fallbackExtraction ([tagGood] ++ tagNoHref :: []) "https://w.com" "f").result_urls
        = (fallbackExtraction ([tagGood] ++ []) "https://w.com" "f").result_urls
    ∧ (configuredExtraction ruleBoth ([tagGood] ++ tagNoHref :: []) "https://w.com" "f").result_urls
        = (configuredExtraction ruleBoth ([tagGood] ++ []) "https://w.com" "f").result_urls
    ∧ (configuredExtraction ruleBoth [tagNoHref] "https://w.com" "f").next_page_url = none :=
  ⟨(c2_falsy_href_skipped [tagGood] [] tagNoHref ruleBoth "https://w.com" "f" rfl).1,
   (c2_falsy_href_skipped [tagGood] [] tagNoHref ruleBoth "https://w.com" "f" rfl).2.1,
   (c2_falsy_href_skipped [tagGood] [] tagNoHref ruleBoth "https://w.com" "f" rfl).2.2
     [tagNoHref] "nsel" tagNoHref rfl rfl rfl⟩

/-- Claim C3: for every document and rule, the result_urls of Configured
Extraction are exactly the base-resolved hrefs of the matched tags that
carry a truthy href, in document order and without deduplication (the
filter-map form preserves order and keeps duplicates); and next_page_url
is non-None only when the next-page selector is configured (present and
non-empty), matches at least one element, and the first match carries a
truthy href. -/
theorem c3_order_dedup_and_next_page (rule : ConfigEntry) (soup : Soup) (base sf : String) :
    (∀ s, getSel rule "result_link_selector" = some s → s ≠ "" →
        (configuredExtraction rule soup base sf).result_urls
          = ((selectAll soup s).filter hrefTruthy).map
              (fun t => urljoin base ((tagGet t "href").getD "")))
    ∧ ((configuredExtraction rule soup base sf).next_page_url ≠ none →
        ∃ s t, getSel rule "next_page_selector" = some s ∧ s ≠ ""
          ∧ selectOne soup s = some t ∧ hrefTruthy t = true) := by
  constructor
  · intro s hget hs
    unfold configuredExtraction
    simp only [hget, hs, ne_eq, not_false_iff, if_pos]
    exact collectLinks_eq_filter_map base (selectAll soup s)
  · intro hne
    unfold configuredExtraction at hne
    simp only at hne
    rcases h1 : getSel rule "next_page_selector" with _ | s
    · rw [h1] at hne; simp at hne
    · rw [h1] at hne
      by_cases hs : s = ""
      · simp [hs] at hne
      · simp only [hs, ne_eq, not_false_iff, if_pos] at hne
        rcases h2 : selectOne soup s with _ | t
        · rw [h2] at hne; simp at hne
        · rw [h2] at hne
          by_cases ht : hrefTruthy t
          · exact ⟨s, t, rfl, hs, h2, ht⟩
          · simp [ht] at hne

/-- Witness for claim C3 at a concrete rule and document: the
result-selector conjunct is applied at the configured selector, and the
next-page conjunct at a document whose first match has a truthy href. -/
theorem c3_order_dedup_and_next_page_witness :
    (configuredExtraction ruleBoth [tagGood, tagEmptyHref, tagHashOnly] "https://w.com" "f").result_urls
        = ((selectAll [tagGood, tagEmptyHref, tagHashOnly] "rsel").filter hrefTruthy).map
            (fun t => urljoin "https://w.com" ((tagGet t "href").getD ""))
    ∧ (∃ s t, getSel ruleBoth "next_page_selector" = some s ∧ s ≠ ""
        ∧ selectOne [tagGood, tagEmptyHref, tagHashOnly] s = some t ∧ hrefTruthy t = true) :=
  ⟨(c3_order_dedup_and_next_page ruleBoth [tagGood, tagEmptyHref, tagHashOnly]
      "https://w.com" "f").1 "rsel" rfl (by decide),
   (c3_order_dedup_and_next_page ruleBoth [tagGood, tagEmptyHref, tagHashOnly]
      "https://w.com" "f").2 (by decide)⟩

/-- Helper: when the bucket is configured, the event parses, and the
download succeeds, process_data records the extraction result selected
by selectedRule on the domain of the file name, whether or not the
subsequent storage write succeeds. -/
theorem processData_extraction (w : ProcWorld) (b fn : String) (soup : Soup)
    (hbucket : pyTruthyOptStr w.processed_data_bucket = true)
    (hevent : w.event = some (b, fn))
    (hdl : w.download = DownloadOutcome.ok soup) :
    (processData w).extraction
      = some (match selectedRule w.config (domainOf fn) with
              | some rule => configuredExtraction rule soup ("https://" ++ domainOf fn) fn
              | none => fallbackExtraction soup ("https://" ++ domainOf fn) fn) := by
  unfold processData
  rw [hevent, hdl]
  cases hs : w.store <;> simp [hbucket, hs]

/-- Claim C1 counterexample: the configuration maps example.com to the
EMPTY rule object and has no entry for www.example.com; the stored file
lives under www.example.com, so the exact lookup misses and the alias
lookup finds the entry — but the empty object is falsy, so the code
runs Fallback Extraction rather than Configured Extraction with the
stripped domain rule, contradicting the claim as stated. -/
theorem c1_cex_empty_alias_rule :
    dictGet procWorldWwwEmptyRule.config (domainOf "www.example.com/page.html") = none
    ∧ dictGet procWorldWwwEmptyRule.config
        (pyReplaceWwwOnce (domainOf "www.example.com/page.html")) = some []
    ∧ pyStartsWith (domainOf "www.example.com/page.html") "www." = true
    ∧ (processData procWorldWwwEmptyRule).extraction
        = some (fallbackExtraction [⟨"a", [("href", "/x.html")], []⟩]
            "https://www.example.com" "www.example.com/page.html")
    ∧ (processData procWorldWwwEmptyRule).extraction
        ≠ some (configuredExtraction [] [⟨"a", [("href", "/x.html")], []⟩]
            "https://www.example.com" "www.example.com/page.html") := by
  refine ⟨rfl, rfl, rfl, by decide, by decide⟩

/-- Claim C1 (amended): when the configuration has no entry for the
exact www-prefixed domain and a NON-EMPTY (truthy) entry for the domain
with the www prefix stripped once, process_data selects Configured
Extraction using the stripped domain rule.  (The counterexample forces
the non-emptiness qualification: an empty rule object is falsy and
falls through to Fallback Extraction.) -/
theorem c1_www_alias_fallback_lookup (w : ProcWorld) (b fn : String) (soup : Soup)
    (e : ConfigEntry)
    (hbucket : pyTruthyOptStr w.processed_data_bucket = true)
    (hevent : w.event = some (b, fn))
    (hdl : w.download = DownloadOutcome.ok soup)
    (hwww : pyStartsWith (domainOf fn) "www." = true)
    (hexact : dictGet w.config (domainOf fn) = none)
    (halias : dictGet w.config (pyReplaceWwwOnce (domainOf fn)) = some e)
    (htruthy : entryTruthy e = true) :
    (processData w).extraction
      = some (configuredExtraction e soup ("https://" ++ domainOf fn) fn) := by
  have hsel : selectedRule w.config (domainOf fn) = some e := by
    unfold selectedRule domainConfigValue
    rw [hexact]
    simp [optEntryTruthy, hwww, halias, htruthy]
  rw [processData_extraction w b fn soup hbucket hevent hdl, hsel]

/-- Witness for the amended claim C1 at the www.recreation.gov world. -/
theorem c1_www_alias_fallback_lookup_witness :
    (processData procWorldWwwAlias).extraction
      = some (configuredExtraction [("result_link_selector", some "rsel")]
          [⟨"a", [("href", "/camping/campgrounds/231875")], ["rsel"]⟩]
          ("https://" ++ domainOf "www.recreation.gov/search.html")
          "www.recreation.gov/search.html") :=
  c1_www_alias_fallback_lookup procWorldWwwAlias "raw-bucket"
    "www.recreation.gov/search.html"
    [⟨"a", [("href", "/camping/campgrounds/231875")], ["rsel"]⟩]
    [("result_link_selector", some "rsel")]
    rfl rfl rfl rfl rfl rfl rfl

/-- Claim C10: an entry for the exact domain whose value is the empty
object (falsy) is treated as no rule at all: the lookup falls through
to the www-stripped alias when the domain is www-prefixed (running
Configured Extraction when the alias rule is truthy, and Fallback
Extraction when the alias entry is missing or falsy), and otherwise
selects Fallback Extraction, despite the exact entry being present. -/
theorem c10_falsy_exact_entry (w : ProcWorld) (b fn : String) (soup : Soup)
    (e : ConfigEntry)
    (hbucket : pyTruthyOptStr w.processed_data_bucket = true)
    (hevent : w.event = some (b, fn))
    (hdl : w.download = DownloadOutcome.ok soup)
    (hexact : dictGet w.config (domainOf fn) = some e)
    (hfalsy : entryTruthy e = false) :
    (pyStartsWith (domainOf fn) "www." = false →
        (processData w).extraction
          = some (fallbackExtraction soup ("https://" ++ domainOf fn) fn))
    ∧ (∀ e2, pyStartsWith (domainOf fn) "www." = true →
        dictGet w.config (pyReplaceWwwOnce (domainOf fn)) = some e2 →
        entryTruthy e2 = true →
        (processData w).extraction
          = some (configuredExtraction e2 soup ("https://" ++ domainOf fn) fn))
    ∧ (pyStartsWith (domainOf fn) "www." = true →
        dictGet w.config (pyReplaceWwwOnce (domainOf fn)) = none →
        (processData w).extraction
          = some (fallbackExtraction soup ("https://" ++ domainOf fn) fn))
    ∧ (∀ e2, pyStartsWith (domainOf fn) "www." = true →
        dictGet w.config (pyReplaceWwwOnce (domainOf fn)) = some e2 →
        entryTruthy e2 = false →
        (processData w).extraction
          = some (fallbackExtraction soup ("https://" ++ domainOf fn) fn)) := by
  refine ⟨?_, ?_, ?_, ?_⟩
  · intro hwww
    have hsel : selectedRule w.config (domainOf fn) = none := by
      unfold selectedRule domainConfigValue
      rw [hexact]
      simp [optEntryTruthy, hfalsy, hwww]
    rw [processData_extraction w b fn soup hbucket hevent hdl, hsel]
  · intro e2 hwww halias htruthy
    have hsel : selectedRule w.config (domainOf fn) = some e2 := by
      unfold selectedRule domainConfigValue
      rw [hexact]
      simp [optEntryTruthy, hfalsy, hwww, halias, htruthy]
    rw [processData_extraction w b fn soup hbucket hevent hdl, hsel]
  · intro hwww halias
    have hsel : selectedRule w.config (domainOf fn) = none := by
      unfold selectedRule domainConfigValue
      rw [hexact]
      simp [optEntryTruthy, hfalsy, hwww, halias]
    rw [processData_extraction w b fn soup hbucket hevent hdl, hsel]
  · intro e2 hwww halias hfalsy2
    have hsel : selectedRule w.config (domainOf fn) = none := by
      unfold selectedRule domainConfigValue
      rw [hexact]
      simp [optEntryTruthy, hfalsy, hwww, halias, hfalsy2]
    rw [processData_extraction w b fn soup hbucket hevent hdl, hsel]

/-- Witness for claim C10: the non-www conjunct at a world whose exact
domain entry is the empty object, and the www conjunct at a world whose
exact www entry is empty while the stripped alias has a truthy rule. -/
theorem c10_falsy_exact_entry_witness :
    (processData procWorldFalsyExact).extraction
      = some (fallbackExtraction [⟨"a", [("href", "/y.html")], []⟩]
          ("https://" ++ domainOf "plain.com/page.html") "plain.com/page.html")
    ∧ (processData procWorldFalsyExactWww).extraction
      = some (configuredExtraction [("result_link_selector", some "rsel")]
          [⟨"a", [("href", "/z.html")], ["rsel"]⟩]
          ("https://" ++ domainOf "www.shop.com/page.html") "www.shop.com/page.html") :=
  ⟨(c10_falsy_exact_entry procWorldFalsyExact "raw-bucket" "plain.com/page.html"
      [⟨"a", [("href", "/y.html")], []⟩] [] rfl rfl rfl rfl rfl).1 rfl,
   (c10_falsy_exact_entry procWorldFalsyExactWww "raw-bucket" "www.shop.com/page.html"
      [⟨"a", [("href", "/z.html")], ["rsel"]⟩] [] rfl rfl rfl rfl rfl).2.1
     [("result_link_selector", some "rsel")] rfl rfl rfl⟩

/-- Claim C9: when no crawl-queue topic is configured (the environment
variable is absent or empty, hence falsy), process_data never invokes
the publish operation, whatever the rest of the world looks like. -/
theorem c9_no_topic_no_publish (w : ProcWorld)
    (h : pyTruthyOptStr w.crawl_queue_topic = false) :
    (processData w).published = none := by
  unfold processData
  by_cases hb : pyTruthyOptStr w.processed_data_bucket
  · rcases he : w.event with _ | bf
    · simp [hb, he]
    · rcases hd : w.download with ⟨soup⟩ | _
      · cases hs : w.store <;> simp [hb, he, hd, hs, h]
      · simp [hb, he, hd]
  · simp [hb]

/-- Witness for claim C9 at a world whose document does produce a
non-null next-page URL and whose topic is unset. -/
theorem c9_no_topic_no_publish_witness :
    (processData procWorldNoTopic).published = none :=
  c9_no_topic_no_publish procWorldNoTopic rfl

/-- Claim C4 counterexample: with the bucket set and a well-formed
trigger whose data field fails base64 decoding, the handler returns
500, not the 400 the claim assigns to undecodable data (binascii.Error
is caught only by the generic handler at main.py:155, not by the
400 handler at main.py:139, which catches only JSONDecodeError and
UnicodeDecodeError). -/
theorem c4_cex_bad_base64_gives_500 :
    scrapeWorldB64.decode "a" = DecodeOutcome.b64err
    ∧ (scrapeAndUpload scrapeWorldB64).status = 500
    ∧ (scrapeAndUpload scrapeWorldB64).status ≠ 400 := by
  refine ⟨rfl, rfl, by decide⟩

/-- Claim C4 (amended): the returned status is 200 on success; 400 for
a missing or falsy trigger body, a missing message or data key, data
that base64-decodes but is not valid UTF-8, unparsable JSON, or a
missing or empty url; and 500 exactly for configuration errors, data
whose base64 decoding itself fails, fetch failures, and storage
failures. -/
theorem c4_status_taxonomy (w : ScrapeWorld) :
    (scrapeAndUpload w).status = statusPerAmendedClaim w := by
  unfold scrapeAndUpload statusPerAmendedClaim
  repeat first
  | rfl
  | split
  all_goals rename_i heqf
  all_goals simp only [heqf]
  all_goals repeat first
  | rfl
  | split

/-- Claim C8: whenever the outbound GET fails (timeout, connection
failure, or non-2xx status — any world whose fetch collaborator
errors), no storage write is attempted and nothing is uploaded; and if
the invocation reached the GET, it terminates with status 500. -/
theorem c8_fetch_failure_no_write (w : ScrapeWorld)
    (hfail : ∀ u, (w.fetch u).isErr = true) :
    (scrapeAndUpload w).uploadAttempted = false
    ∧ (scrapeAndUpload w).uploaded = none
    ∧ ((scrapeAndUpload w).fetched = true → (scrapeAndUpload w).status = 500) := by
  unfold scrapeAndUpload
  by_cases hb : pyTruthyOptStr w.raw_data_bucket
  case neg => simp [hb]
  case pos =>
    rcases ht : w.trigger with _ | t
    · simp [hb, ht]
    · rcases hm : t.message with _ | m
      · simp [hb, ht, hm]
      · rcases hd : m.data with _ | b64
        · simp [hb, ht, hm, hd]
        · rcases hdec : w.decode b64 with text | _ | _
          · rcases hp : w.parse text with url | _
            · by_cases hu : pyTruthyOptStr url
              · rcases hf : w.fetch (url.getD "") with html | _
                · exfalso
                  have hx := hfail (url.getD "")
                  rw [hf] at hx
                  simp [FetchOutcome.isErr] at hx
                · simp [hb, ht, hm, hd, hdec, hp, hu, hf]
              · simp [hb, ht, hm, hd, hdec, hp, hu]
            · simp [hb, ht, hm, hd, hdec, hp]
          · simp [hb, ht, hm, hd, hdec]
          · simp [hb, ht, hm, hd, hdec]

/-- Witness for claim C8 at a concrete world whose fetch collaborator
always fails while everything before it succeeds. -/
theorem c8_fetch_failure_no_write_witness :
    (scrapeAndUpload scrapeWorldFetchFail).uploadAttempted = false
    ∧ (scrapeAndUpload scrapeWorldFetchFail).uploaded = none
    ∧ (scrapeAndUpload scrapeWorldFetchFail).status = 500 :=
  ⟨(c8_fetch_failure_no_write scrapeWorldFetchFail (fun _ => rfl)).1,
   (c8_fetch_failure_no_write scrapeWorldFetchFail (fun _ => rfl)).2.1,
   (c8_fetch_failure_no_write scrapeWorldFetchFail (fun _ => rfl)).2.2 rfl⟩

/-- Helper: the deterministic key leaves netloc + path unchanged when
the path is non-empty, does not end in a slash, and the combined name
carries an extension. -/
theorem deriveFilenameParts_id (n p : String) (hp : p ≠ "")
    (hslash : pyEndsWith p "/" = false)
    (hext : (splitext (n ++ p)).2 ≠ "") :
    deriveFilenameParts n p = n ++ p := by
  have hpl : p.toList ≠ [] := by
    intro hnil
    apply hp
    cases p with
    | mk data =>
      have hd : data = [] := hnil
      subst hd
      rfl
  unfold deriveFilenameParts
  simp [pyEndsWith_slash_append n p hpl, hslash, hp, hext]

/-- Helper: the deterministic key ends in /index.html when the path is
empty or a bare slash. -/
theorem deriveFilenameParts_index (n p : String) (h : p = "" ∨ p = "/") :
    pyEndsWith (deriveFilenameParts n p) "/index.html" = true := by
  have heq : ("/" ++ "index.html" : String) = "/index.html" := by decide
  rcases h with rfl | rfl
  · unfold deriveFilenameParts
    by_cases hs : pyEndsWith (n ++ "") "/" = true
    · rw [if_pos hs]
      have hx := pyEndsWith_extend (n ++ "") "index.html" hs
      rwa [heq] at hx
    · rw [if_neg hs, if_pos rfl]
      exact pyEndsWith_append_self (n ++ "") "/index.html"
  · unfold deriveFilenameParts
    rw [if_pos (pyEndsWith_append_self n "/")]
    have hx := pyEndsWith_extend (n ++ "/") "index.html" (pyEndsWith_append_self n "/")
    rwa [heq] at hx

/-- Claim C6: for every URL, the deterministic storage key equals
netloc + path unchanged when the path is non-empty, does not end in a
slash, and the key carries an extension; and the key ends in
/index.html when the path is empty or exactly a slash. -/
theorem c6_deterministic_key (url : String) :
    ((pyUrlparse url "").path ≠ "" →
      pyEndsWith (pyUrlparse url "").path "/" = false →
      (splitext ((pyUrlparse url "").netloc ++ (pyUrlparse url "").path)).2 ≠ "" →
      deriveFilename url = (pyUrlparse url "").netloc ++ (pyUrlparse url "").path)
    ∧ (((pyUrlparse url "").path = "" ∨ (pyUrlparse url "").path = "/") →
      pyEndsWith (deriveFilename url) "/index.html" = true) := by
  constructor
  · intro h1 h2 h3
    exact deriveFilenameParts_id _ _ h1 h2 h3
  · intro h
    exact deriveFilenameParts_index _ _ h

/-- Witness for claim C6: the unchanged-key conjunct at a URL with an
extension and the index conjunct at a bare-host URL. -/
theorem c6_deterministic_key_witness :
    deriveFilename "http://example.com/some/path/page.html"
        = "example.com/some/path/page.html"
    ∧ pyEndsWith (deriveFilename "http://example.com") "/index.html" = true := by
  constructor
  · have h := (c6_deterministic_key "http://example.com/some/path/page.html").1
      (by decide) (by decide) (by decide)
    rw [h]
    decide
  · exact (c6_deterministic_key "http://example.com").2 (Or.inl (by decide))
